import Mathlib

/-!
# Verification of the try-on backend core

A shallow embedding of the core pipeline of the `try-on-backend` repository:
garment classification, normalization of the AI backend's raw output,
materialization of result bytes, the job-progress state machine, and the two
HTTP operations (`/api/generate` submission and `/api/status` reads).

Sources embedded here:
* `ReplicateVellaService` (`determineGarmentType`, `processReplicateOutput`,
  `getImageBuffer`, `createMockResults`, `createMockImageBuffer`);
* `server.js` (`app.post('/api/generate')`, `app.get('/api/status/:requestId')`,
  `processVellaTryOn`, `saveGeneratedImage`, `getImagePath`, `validateImage`).

External collaborators (the HTTP fetch performed by `axios.get`, the `canvas`
rendering library, the filesystem) are modelled as explicit environment
parameters; machine-level byte buffers are modelled as `List Nat`.
-/

set_option maxRecDepth 4096

namespace TryOn

/-! ## Garment classification (`ReplicateVellaService.determineGarmentType`) -/

/-- A garment reference as carried through the pipeline: a `type` string
(`"top"`, `"bottom"`, `"dress"`, `"outer"` or anything else) and the path of
its image on disk. -/
structure Garment where
  type : String
  imagePath : String := ""
deriving Repr, DecidableEq

/-- `garments.some(g => g.type === t)` — presence of a garment type. -/
def hasType (gs : List Garment) (t : String) : Bool :=
  gs.any (fun g => g.type == t)

/-- `determineGarmentType` from `ReplicateVellaService`: the cascade of
`hasDress / hasTop && hasBottom / ...` checks, transcribed branch by branch. -/
def determineGarmentType (gs : List Garment) : String :=
  let hasTop := gs.any (fun g => g.type == "top")
  let hasBottom := gs.any (fun g => g.type == "bottom")
  let hasDress := gs.any (fun g => g.type == "dress")
  let hasOuter := gs.any (fun g => g.type == "outer")
  if hasDress then "dress"
  else if hasTop && hasBottom then "top_bottom"
  else if hasTop && hasOuter then "top_outer"
  else if hasTop then "top"
  else if hasBottom then "bottom"
  else if hasOuter then "outer"
  else "top"

/-- Modelled from the spec's words (§4.1 / claim C1), read literally: the
precedence list with the `only` qualifiers taken as exclusivity — rule 4 fires
only when `top` alone (of the recognized types) is present, rule 5 only when
`bottom` alone is present, rule 6 only when `outer` alone is present, and the
final default returns `"top"`. -/
def specClassify (gs : List Garment) : String :=
  let top := hasType gs "top"
  let bottom := hasType gs "bottom"
  let dress := hasType gs "dress"
  let outer := hasType gs "outer"
  if dress then "dress"
  else if top && bottom then "top_bottom"
  else if top && outer then "top_outer"
  else if top && !bottom && !outer && !dress then "top"
  else if bottom && !top && !outer && !dress then "bottom"
  else if outer && !top && !bottom && !dress then "outer"
  else "top"

/-- The amended precedence (claim C1 amended): identical to the spec's list
except that rules 5 and 6 are presence tests — `bottom` present (no dress, no
top) yields `"bottom"` even when `outer` is also present, and `outer` fires
whenever it is present and nothing earlier matched. -/
def amendedClassify (gs : List Garment) : String :=
  if hasType gs "dress" then "dress"
  else if hasType gs "top" && hasType gs "bottom" then "top_bottom"
  else if hasType gs "top" && hasType gs "outer" then "top_outer"
  else if hasType gs "top" then "top"
  else if hasType gs "bottom" then "bottom"
  else if hasType gs "outer" then "outer"
  else "top"

lemma hasType_perm {gs gs' : List Garment} (h : gs.Perm gs') (t : String) :
    hasType gs t = hasType gs' t := by
  unfold hasType
  rcases hg : gs.any (fun g => g.type == t) with _ | _ <;>
    rcases hg' : gs'.any (fun g => g.type == t) with _ | _ <;> try rfl
  · exfalso
    rw [List.any_eq_true] at hg'
    obtain ⟨g, hmem, hgt⟩ := hg'
    have : gs.any (fun g => g.type == t) = true :=
      List.any_eq_true.mpr ⟨g, (h.mem_iff).mpr hmem, hgt⟩
    simp [this] at hg
  · exfalso
    rw [List.any_eq_true] at hg
    obtain ⟨g, hmem, hgt⟩ := hg
    have : gs'.any (fun g => g.type == t) = true :=
      List.any_eq_true.mpr ⟨g, (h.mem_iff).mp hmem, hgt⟩
    simp [this] at hg'

/-! ## Normalization (`ReplicateVellaService.processReplicateOutput`) -/

/-- One backend-produced raw output item, by runtime shape:
a `Readable` byte stream (modelled by the bytes it delivers), a URL string, an
object whose `url` member is callable (`none` models a resolver that throws),
an object with a static string `url` field, an object with neither, or a
non-object non-string primitive. -/
inductive RawItem where
  | stream (bytes : List Nat)
  | str (s : String)
  | objFnUrl (resolve : Option String)
  | objStrUrl (s : String)
  | objOther
  | otherValue
deriving Repr, DecidableEq

/-- The raw backend output handed to `processReplicateOutput`: either an array
of items or a single item. -/
inductive RawOutput where
  | arr (items : List RawItem)
  | single (item : RawItem)
deriving Repr, DecidableEq

/-- A normalized result record as pushed onto `results` by
`processReplicateOutput` (and as produced by `createMockResults`). -/
structure ResultRecord where
  imageBuffer : Option (List Nat) := none
  imageUrl : Option String := none
  index : Nat
  type : String := "tryon_result"
  mimeType : String
  isStream : Bool := false
  isMock : Bool := false
deriving Repr, DecidableEq

/-- The body of the `for (let i = 0; i < output.length; i++)` loop of
`processReplicateOutput`, transcribed case by case: streams are converted to
inline buffers, strings and url-bearing objects become remote references, a
throwing resolver or an unrecognized shape pushes nothing. -/
def processItemsLoop : Nat → List RawItem → List ResultRecord
  | _, [] => []
  | i, .stream bs :: rest =>
      { imageBuffer := some bs, index := i, mimeType := "image/png",
        isStream := true } :: processItemsLoop (i + 1) rest
  | i, .str s :: rest =>
      { imageUrl := some s, index := i, mimeType := "image/png" }
        :: processItemsLoop (i + 1) rest
  | i, .objFnUrl (some u) :: rest =>
      { imageUrl := some u, index := i, mimeType := "image/png" }
        :: processItemsLoop (i + 1) rest
  | i, .objFnUrl none :: rest => processItemsLoop (i + 1) rest
  | i, .objStrUrl s :: rest =>
      { imageUrl := some s, index := i, mimeType := "image/png" }
        :: processItemsLoop (i + 1) rest
  | i, .objOther :: rest => processItemsLoop (i + 1) rest
  | i, .otherValue :: rest => processItemsLoop (i + 1) rest

/-- The single-item (non-array) branches of `processReplicateOutput`. A lone
stream reaches the plain-object branch (it is an object without a `url`
member), so it produces nothing and falls through to the mock fallback. -/
def processSingle : RawItem → List ResultRecord
  | .str s => [{ imageUrl := some s, index := 0, mimeType := "image/png" }]
  | .objFnUrl (some u) => [{ imageUrl := some u, index := 0, mimeType := "image/png" }]
  | .objFnUrl none => []
  | .objStrUrl s => [{ imageUrl := some s, index := 0, mimeType := "image/png" }]
  | .objOther => []
  | .stream _ => []
  | .otherValue => []

/-- `createMockResults`: the single synthesized mock record. -/
def createMockResults : List ResultRecord :=
  [{ imageUrl := some "mock://tryon-result-1", index := 0,
     mimeType := "image/png", isMock := true }]

/-- The record list accumulated by `processReplicateOutput` before the
zero-records check. -/
def collectRecords : RawOutput → List ResultRecord
  | .arr items => processItemsLoop 0 items
  | .single item => processSingle item

/-- `processReplicateOutput`: accumulate records by shape, then fall back to
`createMockResults` when nothing was produced. Total — every branch of the
source either pushes a record or skips, and the one locally caught failure
(the `url()` resolver) is modelled by `RawItem.objFnUrl none`. -/
def processReplicateOutput (raw : RawOutput) : List ResultRecord :=
  if (collectRecords raw).isEmpty then createMockResults else collectRecords raw

/-- Modelled from the spec's words (§4.3 / claim C5): the per-item mapping
rule applied independently to each item, with its 0-based array index.
`none` is a skipped (counted, non-fatal) item. Provenance `real` is the
`isMock := false` default. -/
def specItemRecord : Nat → RawItem → Option ResultRecord
  | i, .stream bs =>
      some { imageBuffer := some bs, index := i, mimeType := "image/png",
             isStream := true }
  | i, .str s => some { imageUrl := some s, index := i, mimeType := "image/png" }
  | i, .objFnUrl (some u) =>
      some { imageUrl := some u, index := i, mimeType := "image/png" }
  | _, .objFnUrl none => none
  | i, .objStrUrl s => some { imageUrl := some s, index := i, mimeType := "image/png" }
  | _, .objOther => none
  | _, .otherValue => none

lemma processItemsLoop_eq_filterMap (items : List RawItem) :
    ∀ i : Nat, processItemsLoop i items =
      (items.enumFrom i).filterMap (fun p => specItemRecord p.1 p.2) := by
  induction items with
  | nil => intro i; rfl
  | cons x rest ih =>
    intro i
    cases x with
    | stream bs =>
        simp [processItemsLoop, List.enumFrom, List.filterMap_cons, specItemRecord, ih]
    | str s =>
        simp [processItemsLoop, List.enumFrom, List.filterMap_cons, specItemRecord, ih]
    | objFnUrl r =>
        cases r with
        | some u =>
            simp [processItemsLoop, List.enumFrom, List.filterMap_cons, specItemRecord, ih]
        | none =>
            simp [processItemsLoop, List.enumFrom, List.filterMap_cons, specItemRecord, ih]
    | objStrUrl s =>
        simp [processItemsLoop, List.enumFrom, List.filterMap_cons, specItemRecord, ih]
    | objOther =>
        simp [processItemsLoop, List.enumFrom, List.filterMap_cons, specItemRecord, ih]
    | otherValue =>
        simp [processItemsLoop, List.enumFrom, List.filterMap_cons, specItemRecord, ih]

/-! ## Claim C1 -/

/-- C1 counterexample: for the garment list `[{type: 'bottom'}, {type: 'outer'}]`
the code returns `"bottom"`, while the claim's precedence list — in which the
`bottom` and `outer` rules require that type to be the *only* one present and
the default case covers the rest — yields `"top"`. The claim, as stated, is
false on this input. -/
theorem garment_classifier_claim_counterexample :
    determineGarmentType [⟨"bottom", ""⟩, ⟨"outer", ""⟩] = "bottom" ∧
    specClassify [⟨"bottom", ""⟩, ⟨"outer", ""⟩] = "top" ∧
    determineGarmentType [⟨"bottom", ""⟩, ⟨"outer", ""⟩] ≠
      specClassify [⟨"bottom", ""⟩, ⟨"outer", ""⟩] := by
  refine ⟨rfl, rfl, ?_⟩
  decide

/-- C1 (amended): `determineGarmentType` is a deterministic, total, pure
function of the garment list; for every garment list it returns the first
matching category of the precedence order — any `dress` yields `"dress"`;
else `top` and `bottom` both present yields `"top_bottom"`; else `top` and
`outer` both present yields `"top_outer"`; else `top` present yields `"top"`;
else `bottom` present yields `"bottom"` (even when `outer` is also present);
else `outer` present yields `"outer"`; else `"top"` — and its value is
independent of the input order. -/
theorem garment_classifier_amended :
    (∀ gs : List Garment, determineGarmentType gs = amendedClassify gs) ∧
    (∀ gs gs' : List Garment, gs.Perm gs' →
      determineGarmentType gs = determineGarmentType gs') := by
  have h1 : ∀ gs : List Garment, determineGarmentType gs = amendedClassify gs :=
    fun _ => rfl
  refine ⟨h1, ?_⟩
  intro gs gs' h
  rw [h1, h1]
  unfold amendedClassify
  simp only [hasType_perm h]

/-- Witness for `garment_classifier_amended`: concrete instantiation, with the
permutation hypothesis discharged on a two-element list. -/
theorem garment_classifier_amended_witness :
    determineGarmentType [⟨"bottom", ""⟩, ⟨"outer", ""⟩] =
      amendedClassify [⟨"bottom", ""⟩, ⟨"outer", ""⟩] ∧
    determineGarmentType [⟨"bottom", ""⟩, ⟨"outer", ""⟩] =
      determineGarmentType [⟨"outer", ""⟩, ⟨"bottom", ""⟩] :=
  ⟨garment_classifier_amended.1 _,
   garment_classifier_amended.2 _ _ (List.Perm.swap _ _ _)⟩

/-! ## Claim C2 -/

/-- C2: `processReplicateOutput` never fails (it is a total function of the
raw output shape — both locally caught failures, the throwing `url()` resolver
and unrecognized shapes, only skip an item), it never returns an empty list,
and whenever the accumulated record list is empty — empty raw array, all items
unrecognized, or all resolvers failing — it returns exactly one mock record
(`isMock = true`, slot index `0`). -/
theorem normalizer_mock_fallback :
    ∀ raw : RawOutput,
      processReplicateOutput raw ≠ [] ∧
      (collectRecords raw = [] →
        processReplicateOutput raw =
          [{ imageUrl := some "mock://tryon-result-1", index := 0,
             mimeType := "image/png", isMock := true }]) := by
  intro raw
  constructor
  · unfold processReplicateOutput
    rcases h : collectRecords raw with _ | ⟨r, rs⟩ <;> simp [h, createMockResults]
  · intro h
    unfold processReplicateOutput
    simp [h, createMockResults]

/-- Witness for `normalizer_mock_fallback`: the empty raw array produces
exactly the single mock record. -/
theorem normalizer_mock_fallback_witness :
    processReplicateOutput (.arr []) ≠ [] ∧
    processReplicateOutput (.arr []) =
      [{ imageUrl := some "mock://tryon-result-1", index := 0,
         mimeType := "image/png", isMock := true }] :=
  ⟨(normalizer_mock_fallback _).1, (normalizer_mock_fallback _).2 rfl⟩

/-! ## Claim C5 -/

/-- C5: the normalization loop maps each raw array item independently of the
others' outcome, keyed by its shape and carrying its own array index: a byte
stream becomes an inline-bytes record (provenance real, mime `image/png`), a
string becomes a remote reference with exactly that URL, an object with a
callable resolver becomes a remote reference with the resolved string or is
skipped non-fatally when the resolver fails, an object with a static string
`url` becomes a remote reference with that string, and any other shape is
skipped non-fatally — i.e. the loop is the `filterMap` of the per-item rule
`specItemRecord` over the index-enumerated items. -/
theorem normalizer_per_item_mapping :
    ∀ items : List RawItem,
      processItemsLoop 0 items =
        items.enum.filterMap (fun p => specItemRecord p.1 p.2) :=
  fun items => processItemsLoop_eq_filterMap items 0

/-! ## Materialization (`ReplicateVellaService.getImageBuffer`,
`createMockImageBuffer`) -/

/-- Outcome of the `axios.get(imageUrl, {responseType: 'arraybuffer', ...})`
call: `ok (some data)` is an HTTP success whose `response.data` is a byte
buffer (possibly zero-length — an empty buffer is still a truthy object);
`ok none` is a success whose `data` is absent (null/undefined), the only case
in which `!response.data` holds; `fail` is a thrown error (network failure,
timeout, non-success status). -/
inductive FetchOutcome where
  | ok (data : Option (List Nat))
  | fail (msg : String)
deriving Repr, DecidableEq

/-- The external collaborators of `ReplicateVellaService`: the HTTP fetch and
the lazily `require`d `canvas` library. `canvasRender = some bs` means
`createCanvas`/`toBuffer('image/png')` succeed and render the placeholder to
the bytes `bs`; `none` means the canvas library throws (e.g. the native module
is not installed). -/
structure VellaEnv where
  fetch : String → FetchOutcome
  canvasRender : Option (List Nat)

/-- JavaScript's `String.prototype.startsWith` / `String.prototype.includes`
on our strings, via the underlying character lists. -/
def strStartsWith (s p : String) : Bool :=
  p.data.isPrefixOf s.data

/-- `createMockImageBuffer` from `ReplicateVellaService` (part_000): render the
512×640 placeholder via `canvas`; on any error, catch it and return
`Buffer.from([])` — an empty buffer. -/
def createMockImageBuffer (env : VellaEnv) : List Nat :=
  match env.canvasRender with
  | some bs => bs
  | none => []

/-- `getImageBuffer` from `ReplicateVellaService`: inline bytes are used
directly; a `mock://` URL synthesizes the placeholder; otherwise the URL is
fetched with a 30s timeout, a thrown fetch error or an absent (`!response.data`)
body is caught and degrades to `createMockImageBuffer`, and a present body is
returned as `Buffer.from(response.data, 'binary')` — note a present but
zero-length body is returned as-is. A record with neither buffer nor URL
throws `Invalid image URL type`, which the surrounding catch also degrades to
the mock buffer. Every path returns; the function never raises. -/
def getImageBuffer (env : VellaEnv) (r : ResultRecord) : List Nat :=
  match r.imageBuffer with
  | some bs => bs
  | none =>
    match r.imageUrl with
    | none => createMockImageBuffer env
    | some url =>
      if strStartsWith url "mock://" then createMockImageBuffer env
      else
        match env.fetch url with
        | .ok (some data) => data
        | .ok none => createMockImageBuffer env
        | .fail _ => createMockImageBuffer env

/-! ## Claim C3 -/

/-- C3 (code bug): a record holding only a remote URL whose fetch succeeds
with HTTP 200 but a zero-length body is materialized as the *empty* buffer;
the `if (!response.data) throw new Error('Empty response from image URL')`
guard never fires for an empty buffer (every buffer object is truthy), so —
contrary to the code's own error message and to the claim — an empty body is
not discarded in favour of the placeholder, and the slot is populated with an
empty buffer. The placeholder the claim promises would have been non-empty in
this environment. -/
theorem materializer_empty_body_bug :
    getImageBuffer
        { fetch := fun _ => .ok (some []), canvasRender := some [1, 2, 3] }
        { imageUrl := some "https://host/img.png", index := 0,
          mimeType := "image/png" } = [] ∧
    createMockImageBuffer
        { fetch := fun _ => .ok (some []), canvasRender := some [1, 2, 3] } ≠ [] := by
  constructor
  · rfl
  · decide

/-! ## Claim C6 -/

/-- C6 counterexample: when the lazily `require`d canvas library fails,
`createMockImageBuffer` catches the error and returns `Buffer.from([])` — an
*empty* buffer — refuting the claim that it always returns a non-empty buffer
valid for its declared mime type. -/
theorem mock_image_empty_counterexample :
    createMockImageBuffer
        { fetch := fun _ => .fail "unused", canvasRender := none } = [] ∧
    (createMockImageBuffer
        { fetch := fun _ => .fail "unused", canvasRender := none }).length = 0 :=
  ⟨rfl, rfl⟩

/-- C6 (amended): `createMockImageBuffer` always succeeds (every branch of the
source returns, never raises); whenever the canvas rendering succeeds it
returns exactly the rendered placeholder buffer — non-empty whenever the
render is (any valid PNG is) — and only when the canvas library itself fails
does it degrade to an empty buffer. -/
theorem mock_image_amended (env : VellaEnv) (bs : List Nat)
    (hrender : env.canvasRender = some bs) (hne : bs ≠ []) :
    createMockImageBuffer env = bs ∧ createMockImageBuffer env ≠ [] := by
  unfold createMockImageBuffer
  rw [hrender]
  exact ⟨rfl, hne⟩

/-- Witness for `mock_image_amended` at a concrete successful canvas
environment. -/
theorem mock_image_amended_witness :
    createMockImageBuffer
        { fetch := fun _ => .fail "unused", canvasRender := some [9, 9] } = [9, 9] ∧
    createMockImageBuffer
        { fetch := fun _ => .fail "unused", canvasRender := some [9, 9] } ≠ [] :=
  mock_image_amended _ [9, 9] rfl (by decide)

/-! ## Job pipeline (`server.js`: `processVellaTryOn`, `saveGeneratedImage`) -/

/-- JavaScript's `String.prototype.includes`, via the character lists. -/
def strIncludes (s sub : String) : Bool :=
  (List.range (s.data.length + 1)).any (fun i => sub.data.isPrefixOf (s.data.drop i))

/-- Job lifecycle states as stored in the `generationJobs` map. -/
inductive JobStatus where
  | processing
  | completed
  | failed
deriving Repr, DecidableEq

/-- One entry of the `generationJobs` registry. The result mapping (a JS
object, slot name → stored reference) is an insertion-ordered association
list. -/
structure JobState where
  status : JobStatus := .processing
  progress : Nat := 0
  message : String := ""
  results : List (String × String) := []
  error : Option String := none
  userId : String := ""
  modelImage : String := ""
  garments : List Garment := []
  isDefaultModel : Bool := false
deriving Repr, DecidableEq

/-- `saveGeneratedImage`: persist a buffer under the user's output directory
and return the relative reference `/outputs/{userId}/{filename}`. The byte
sink itself is a collaborator; only the returned reference matters here. -/
def saveGeneratedImage (filename userId : String) : String :=
  "/outputs/" ++ userId ++ "/" ++ filename

/-- Slot name for the `i`-th materialized try-on result (0-based loop index,
1-based slot name): `tryonResult${i + 1}`. -/
def tryonSlotKey (i : Nat) : String :=
  "tryonResult" ++ toString (i + 1)

/-- The per-record materialization loop of `processVellaTryOn`: every record
`i` populates `tryonResult${i+1}` with the saved reference
`vella-result-${requestId}-${i}.png`. `getImageBuffer` never raises (see
`getImageBuffer`), so the catch branch (which would save a mock `.jpg`
instead) is not taken and the loop never fails the job. -/
def tryonRefs (rid uid : String) (n : Nat) : List (String × String) :=
  (List.range n).map (fun i =>
    (tryonSlotKey i,
     saveGeneratedImage ("vella-result-" ++ rid ++ "-" ++ toString i ++ ".png") uid))

/-- The post-processing block of `processVellaTryOn` (lines 1088–1108): when
at least one slot was materialized, append `enhancedProduct` and
`productBack`, copy `tryonResult1` into `modelFront`, and set `modelBack` to
`tryonResult2` when present, otherwise to a freshly synthesized back view. -/
def addExtraResults (rid uid : String) (base : List (String × String)) :
    List (String × String) :=
  if base.length = 0 then base
  else
    let r1 := base ++
      [("enhancedProduct", saveGeneratedImage ("enhanced-" ++ rid ++ ".jpg") uid),
       ("productBack", saveGeneratedImage ("product-back-" ++ rid ++ ".jpg") uid)]
    let r2 := match r1.lookup "tryonResult1" with
      | some v => r1 ++ [("modelFront", v)]
      | none => r1
    match r2.lookup "tryonResult2" with
    | some v => r2 ++ [("modelBack", v)]
    | none =>
      match r2.lookup "tryonResult1" with
      | some _ =>
          r2 ++ [("modelBack", saveGeneratedImage ("model-back-" ++ rid ++ ".jpg") uid)]
      | none => r2

/-- The final result mapping of a successfully completed job with `n`
materialized try-on records. -/
def jobResultsFor (rid uid : String) (n : Nat) : List (String × String) :=
  addExtraResults rid uid (tryonRefs rid uid n)

/-- Outcome of `activeAIService.virtualTryOn` (backend invocation followed by
normalization): either the normalized record list, or a thrown error with its
message. -/
inductive BackendOutcome where
  | ok (records : List ResultRecord)
  | err (msg : String)

/-- The sequence of registry writes (`generationJobs.set`) performed by
`processVellaTryOn` on a job, in order: progress 20, progress 40, then —
if the backend invocation or normalization throws — the single `failed`
write carrying the error message; otherwise progress 80 followed by the
terminal `completed` write at progress 100 carrying the result mapping.
Materialization cannot throw (see `getImageBuffer`), and the post-completion
cleanup performs no further writes. -/
def pipelineTrace (rid : String) (outcome : BackendOutcome) (job : JobState) :
    List JobState :=
  let j20 := { job with progress := 20, message := "Preparing images for Vella AI..." }
  let j40 := { j20 with progress := 40, message := "Running Vella AI model..." }
  match outcome with
  | .err m => [j20, j40, { j40 with status := .failed, error := some m }]
  | .ok records =>
    let j80 := { j40 with progress := 80, message := "Processing results..." }
    [j20, j40, j80,
     { j80 with
        status := .completed
        progress := 100
        message := "Vella virtual try-on completed successfully"
        results := jobResultsFor rid job.userId records.length }]

/-! ## Claim C4 -/

/-- C4: for every job (in its creation state: `processing` at progress 0), the
progress values recorded by the pipeline are monotonically non-decreasing
through the checkpoints 20, 40, 80, 100; a successful job's last write is
`completed` at exactly progress 100; a job whose backend invocation or
normalization throws is written as `failed` exactly once, carrying the causing
error's message; and `completed`/`failed` are terminal — every write before
the last one still has status `processing`, so no pipeline step ever moves a
job out of a terminal state. -/
theorem pipeline_progress_invariants :
    ∀ (rid : String) (outcome : BackendOutcome) (job : JobState),
      job.progress = 0 → job.status = .processing →
      List.Chain' (· ≤ ·)
        (job.progress :: (pipelineTrace rid outcome job).map (fun j => j.progress)) ∧
      (∀ records, outcome = .ok records →
        (pipelineTrace rid outcome job).getLast?.map (fun j => (j.status, j.progress)) =
          some (.completed, 100)) ∧
      (∀ m, outcome = .err m →
        ((pipelineTrace rid outcome job).countP (fun j => j.status == JobStatus.failed) = 1 ∧
         (pipelineTrace rid outcome job).getLast?.map (fun j => (j.status, j.error)) =
           some (.failed, some m))) ∧
      (∀ j ∈ (pipelineTrace rid outcome job).dropLast, j.status = .processing) := by
  intro rid outcome job hprog hstat
  cases outcome with
  | ok records =>
    refine ⟨?_, ?_, ?_, ?_⟩
    · simp [pipelineTrace, hprog]
    · intro records' _
      simp [pipelineTrace]
    · intro m h
      exact absurd h (by simp)
    · intro j hj
      simp [pipelineTrace, List.dropLast] at hj
      rcases hj with h | h | h <;> simp [h, hstat]
  | err m =>
    refine ⟨?_, ?_, ?_, ?_⟩
    · simp [pipelineTrace, hprog]
    · intro records h
      exact absurd h (by simp)
    · intro m' h
      obtain rfl : m = m' := by injection h
      constructor
      · simp [pipelineTrace, List.countP, List.countP.go, hstat]
        decide
      · simp [pipelineTrace]
    · intro j hj
      simp [pipelineTrace, List.dropLast] at hj
      rcases hj with h | h <;> simp [h, hstat]

/-- Witness for `pipeline_progress_invariants`: a concrete failing run and a
concrete successful run of the pipeline on a freshly created job. -/
theorem pipeline_progress_invariants_witness :
    ((pipelineTrace "1" (.err "Virtual try-on failed: boom")
        { userId := "u" }).countP (fun j => j.status == JobStatus.failed) = 1) ∧
    ((pipelineTrace "1" (.ok createMockResults)
        { userId := "u" }).getLast?.map (fun j => (j.status, j.progress)) =
      some (.completed, 100)) :=
  ⟨((pipeline_progress_invariants "1" (.err "Virtual try-on failed: boom")
      { userId := "u" } rfl rfl).2.2.1 _ rfl).1,
   (pipeline_progress_invariants "1" (.ok createMockResults)
      { userId := "u" } rfl rfl).2.1 _ rfl⟩

/-! ## Association-list lookup facts for the result mapping -/

lemma lookup_append_some {β : Type} {l₁ l₂ : List (String × β)} {k : String} {v : β}
    (h : l₁.lookup k = some v) : (l₁ ++ l₂).lookup k = some v := by
  induction l₁ with
  | nil => simp [List.lookup] at h
  | cons x xs ih =>
    rcases x with ⟨a, b⟩
    rw [List.cons_append]
    cases hk : (k == a) with
    | true =>
      simp only [List.lookup, hk] at h ⊢
      exact h
    | false =>
      simp only [List.lookup, hk] at h ⊢
      exact ih h

lemma lookup_append_none {β : Type} {l₁ l₂ : List (String × β)} {k : String}
    (h : l₁.lookup k = none) : (l₁ ++ l₂).lookup k = l₂.lookup k := by
  induction l₁ with
  | nil => rfl
  | cons x xs ih =>
    rcases x with ⟨a, b⟩
    rw [List.cons_append]
    cases hk : (k == a) with
    | true =>
      simp only [List.lookup, hk] at h
      exact absurd h (by simp)
    | false =>
      simp only [List.lookup, hk] at h ⊢
      exact ih h

lemma lookup_none_of_keys {β : Type} (l : List (String × β)) (k : String)
    (h : ∀ p ∈ l, (k == p.1) = false) : l.lookup k = none := by
  induction l with
  | nil => rfl
  | cons x xs ih =>
    rcases x with ⟨a, b⟩
    have hx : (k == a) = false := h (a, b) (by simp)
    simp only [List.lookup, hx]
    exact ih (fun p hp => h p (by simp [hp]))

lemma tryon_key_head (s : String) : ("tryonResult" ++ s).data.head? = some 't' := by
  rw [String.data_append]
  rfl

/-- Every `tryonResult…` slot key starts with `'t'`, so a query whose first
character is not `'t'` misses every entry of `tryonRefs`. -/
lemma tryonRefs_lookup_none (rid uid : String) (n : Nat) (k : String)
    (hk : k.data.head? ≠ some 't') : (tryonRefs rid uid n).lookup k = none := by
  apply lookup_none_of_keys
  intro p hp
  simp only [tryonRefs, List.mem_map, List.mem_range] at hp
  obtain ⟨i, _, rfl⟩ := hp
  have hne : k ≠ tryonSlotKey i := by
    intro he
    exact hk (he ▸ tryon_key_head (toString (i + 1)))
  simpa using hne

lemma tryonRefs_succ (rid uid : String) (m : Nat) :
    tryonRefs rid uid (m + 1) =
      (tryonSlotKey 0,
        saveGeneratedImage ("vella-result-" ++ rid ++ "-" ++ toString 0 ++ ".png") uid)
        :: (List.range m).map (fun i =>
            (tryonSlotKey (i + 1),
             saveGeneratedImage
               ("vella-result-" ++ rid ++ "-" ++ toString (i + 1) ++ ".png") uid)) := by
  simp [tryonRefs, List.range_succ_eq_map, List.map_map]

lemma tryonRefs_lookup_first (rid uid : String) (m : Nat) :
    (tryonRefs rid uid (m + 1)).lookup "tryonResult1" =
      some (saveGeneratedImage ("vella-result-" ++ rid ++ "-" ++ toString 0 ++ ".png") uid) := by
  rw [tryonRefs_succ]
  have h : (("tryonResult1" : String) == tryonSlotKey 0) = true := by decide
  simp [List.lookup, h]

lemma tryonRefs_lookup_second (rid uid : String) (m : Nat) :
    (tryonRefs rid uid (m + 2)).lookup "tryonResult2" =
      some (saveGeneratedImage ("vella-result-" ++ rid ++ "-" ++ toString 1 ++ ".png") uid) := by
  rw [tryonRefs_succ]
  have h0 : (("tryonResult2" : String) == tryonSlotKey 0) = false := by decide
  have h1 : (("tryonResult2" : String) == tryonSlotKey 1) = true := by decide
  simp [List.lookup, h0, List.range_succ_eq_map, h1]

lemma tryonRefs_length (rid uid : String) (n : Nat) :
    (tryonRefs rid uid n).length = n := by
  simp [tryonRefs]

lemma jobResultsFor_one (rid uid : String) :
    jobResultsFor rid uid 1 =
      [("tryonResult1",
          saveGeneratedImage ("vella-result-" ++ rid ++ "-" ++ toString 0 ++ ".png") uid),
       ("enhancedProduct", saveGeneratedImage ("enhanced-" ++ rid ++ ".jpg") uid),
       ("productBack", saveGeneratedImage ("product-back-" ++ rid ++ ".jpg") uid),
       ("modelFront",
          saveGeneratedImage ("vella-result-" ++ rid ++ "-" ++ toString 0 ++ ".png") uid),
       ("modelBack", saveGeneratedImage ("model-back-" ++ rid ++ ".jpg") uid)] := by
  have hk0 : tryonSlotKey 0 = "tryonResult1" := by decide
  simp [jobResultsFor, addExtraResults, tryonRefs, List.range, List.range.loop, hk0,
    List.lookup]

lemma jobResultsFor_succ_succ (rid uid : String) (m : Nat) :
    jobResultsFor rid uid (m + 2) =
      ((tryonRefs rid uid (m + 2) ++
          [("enhancedProduct", saveGeneratedImage ("enhanced-" ++ rid ++ ".jpg") uid),
           ("productBack", saveGeneratedImage ("product-back-" ++ rid ++ ".jpg") uid)]) ++
        [("modelFront",
            saveGeneratedImage ("vella-result-" ++ rid ++ "-" ++ toString 0 ++ ".png") uid)]) ++
      [("modelBack",
          saveGeneratedImage ("vella-result-" ++ rid ++ "-" ++ toString 1 ++ ".png") uid)] := by
  have hfirst := tryonRefs_lookup_first rid uid (m + 1)
  have hsecond := tryonRefs_lookup_second rid uid m
  have hr1 := @lookup_append_some _ _
    [("enhancedProduct", saveGeneratedImage ("enhanced-" ++ rid ++ ".jpg") uid),
     ("productBack", saveGeneratedImage ("product-back-" ++ rid ++ ".jpg") uid)]
    _ _ hfirst
  have hr2 := @lookup_append_some _ _
    [("modelFront",
        saveGeneratedImage ("vella-result-" ++ rid ++ "-" ++ toString 0 ++ ".png") uid)]
    _ _
    (@lookup_append_some _ _
      [("enhancedProduct", saveGeneratedImage ("enhanced-" ++ rid ++ ".jpg") uid),
       ("productBack", saveGeneratedImage ("product-back-" ++ rid ++ ".jpg") uid)]
      _ _ hsecond)
  simp only [jobResultsFor, addExtraResults, tryonRefs_length]
  rw [if_neg (by omega : ¬m + 2 = 0)]
  rw [hr1, hr2]

/-! ## Claim C10 -/

/-- C10: for every job that completes with at least one materialized try-on
record, the final result mapping (the `results` of the terminal `completed`
write) contains — beyond the requested `tryonResultN` slots — the extra slots
`enhancedProduct` and `productBack`, a slot `modelFront` whose stored
reference equals that of `tryonResult1`, and a slot `modelBack` equal to
`tryonResult2` when a second result exists and otherwise a freshly
synthesized back-view image (`model-back-{requestId}.jpg`, a reference
distinct from every try-on slot's). None of these correspond to a requested
output count. -/
theorem completed_job_extra_slots :
    ∀ (rid uid : String) (records : List ResultRecord) (job : JobState),
      job.userId = uid → 1 ≤ records.length →
      ((pipelineTrace rid (.ok records) job).getLast?.map (fun j => j.results) =
          some (jobResultsFor rid uid records.length)) ∧
      ((jobResultsFor rid uid records.length).lookup "enhancedProduct" =
          some (saveGeneratedImage ("enhanced-" ++ rid ++ ".jpg") uid)) ∧
      ((jobResultsFor rid uid records.length).lookup "productBack" =
          some (saveGeneratedImage ("product-back-" ++ rid ++ ".jpg") uid)) ∧
      ((jobResultsFor rid uid records.length).lookup "modelFront" =
          (jobResultsFor rid uid records.length).lookup "tryonResult1" ∧
       ((jobResultsFor rid uid records.length).lookup "tryonResult1").isSome = true) ∧
      (2 ≤ records.length →
        (jobResultsFor rid uid records.length).lookup "modelBack" =
          (jobResultsFor rid uid records.length).lookup "tryonResult2") ∧
      (records.length = 1 →
        (jobResultsFor rid uid records.length).lookup "modelBack" =
          some (saveGeneratedImage ("model-back-" ++ rid ++ ".jpg") uid)) := by
  intro rid uid records job huid hn
  have hlink : (pipelineTrace rid (.ok records) job).getLast?.map (fun j => j.results) =
      some (jobResultsFor rid uid records.length) := by
    simp [pipelineTrace, huid]
  refine ⟨hlink, ?_⟩
  obtain ⟨m, hm⟩ : ∃ m, records.length = m + 1 := ⟨records.length - 1, by omega⟩
  rw [hm]
  cases m with
  | zero =>
    rw [jobResultsFor_one]
    refine ⟨by simp [List.lookup], by simp [List.lookup], ⟨by simp [List.lookup], by simp [List.lookup]⟩, ?_, ?_⟩
    · intro h2
      omega
    · intro _
      simp [List.lookup]
  | succ m' =>
    have hbe : (tryonRefs rid uid (m' + 2)).lookup "enhancedProduct" = none :=
      tryonRefs_lookup_none rid uid _ _ (by decide)
    have hbp : (tryonRefs rid uid (m' + 2)).lookup "productBack" = none :=
      tryonRefs_lookup_none rid uid _ _ (by decide)
    have hbmf : (tryonRefs rid uid (m' + 2)).lookup "modelFront" = none :=
      tryonRefs_lookup_none rid uid _ _ (by decide)
    have hbmb : (tryonRefs rid uid (m' + 2)).lookup "modelBack" = none :=
      tryonRefs_lookup_none rid uid _ _ (by decide)
    have hfirst : (tryonRefs rid uid (m' + 2)).lookup "tryonResult1" =
        some (saveGeneratedImage ("vella-result-" ++ rid ++ "-" ++ toString 0 ++ ".png") uid) :=
      tryonRefs_lookup_first rid uid (m' + 1)
    have hsecond := tryonRefs_lookup_second rid uid m'
    have he2 : ((tryonRefs rid uid (m' + 2)) ++
        [("enhancedProduct", saveGeneratedImage ("enhanced-" ++ rid ++ ".jpg") uid),
         ("productBack", saveGeneratedImage ("product-back-" ++ rid ++ ".jpg") uid)]).lookup
          "enhancedProduct" =
        some (saveGeneratedImage ("enhanced-" ++ rid ++ ".jpg") uid) := by
      rw [lookup_append_none hbe]
      simp [List.lookup]
    have hp2 : ((tryonRefs rid uid (m' + 2)) ++
        [("enhancedProduct", saveGeneratedImage ("enhanced-" ++ rid ++ ".jpg") uid),
         ("productBack", saveGeneratedImage ("product-back-" ++ rid ++ ".jpg") uid)]).lookup
          "productBack" =
        some (saveGeneratedImage ("product-back-" ++ rid ++ ".jpg") uid) := by
      rw [lookup_append_none hbp]
      simp [List.lookup]
    have hmf1 : ((tryonRefs rid uid (m' + 2)) ++
        [("enhancedProduct", saveGeneratedImage ("enhanced-" ++ rid ++ ".jpg") uid),
         ("productBack", saveGeneratedImage ("product-back-" ++ rid ++ ".jpg") uid)]).lookup
          "modelFront" = none := by
      rw [lookup_append_none hbmf]
      simp [List.lookup]
    have hmf2 : (((tryonRefs rid uid (m' + 2)) ++
        [("enhancedProduct", saveGeneratedImage ("enhanced-" ++ rid ++ ".jpg") uid),
         ("productBack", saveGeneratedImage ("product-back-" ++ rid ++ ".jpg") uid)]) ++
        [("modelFront",
            saveGeneratedImage ("vella-result-" ++ rid ++ "-" ++ toString 0 ++ ".png") uid)]).lookup
          "modelFront" =
        some (saveGeneratedImage ("vella-result-" ++ rid ++ "-" ++ toString 0 ++ ".png") uid) := by
      rw [lookup_append_none hmf1]
      simp [List.lookup]
    have hmb1 : ((tryonRefs rid uid (m' + 2)) ++
        [("enhancedProduct", saveGeneratedImage ("enhanced-" ++ rid ++ ".jpg") uid),
         ("productBack", saveGeneratedImage ("product-back-" ++ rid ++ ".jpg") uid)]).lookup
          "modelBack" = none := by
      rw [lookup_append_none hbmb]
      simp [List.lookup]
    have hmb2 : (((tryonRefs rid uid (m' + 2)) ++
        [("enhancedProduct", saveGeneratedImage ("enhanced-" ++ rid ++ ".jpg") uid),
         ("productBack", saveGeneratedImage ("product-back-" ++ rid ++ ".jpg") uid)]) ++
        [("modelFront",
            saveGeneratedImage ("vella-result-" ++ rid ++ "-" ++ toString 0 ++ ".png") uid)]).lookup
          "modelBack" = none := by
      rw [lookup_append_none hmb1]
      simp [List.lookup]
    rw [jobResultsFor_succ_succ]
    refine ⟨?_, ?_, ⟨?_, ?_⟩, ?_, ?_⟩
    · rw [lookup_append_some (lookup_append_some he2)]
    · rw [lookup_append_some (lookup_append_some hp2)]
    · rw [lookup_append_some hmf2,
        lookup_append_some (lookup_append_some (lookup_append_some hfirst))]
    · rw [lookup_append_some (lookup_append_some (lookup_append_some hfirst))]
      rfl
    · intro _
      rw [lookup_append_some (lookup_append_some (lookup_append_some hsecond))]
      rw [lookup_append_none hmb2]
      simp [List.lookup]
    · intro h1
      omega

/-- Witness for `completed_job_extra_slots`: a single-record completion for a
concrete job. -/
theorem completed_job_extra_slots_witness :
    (jobResultsFor "7" "u" (createMockResults).length).lookup "enhancedProduct" =
        some (saveGeneratedImage ("enhanced-" ++ "7" ++ ".jpg") "u") ∧
    (jobResultsFor "7" "u" (createMockResults).length).lookup "modelBack" =
        some (saveGeneratedImage ("model-back-" ++ "7" ++ ".jpg") "u") :=
  ⟨(completed_job_extra_slots "7" "u" createMockResults { userId := "u" } rfl
      (by decide)).2.1,
   (completed_job_extra_slots "7" "u" createMockResults { userId := "u" } rfl
      (by decide)).2.2.2.2.2 (by decide)⟩

/-! ## Status endpoint (`app.get('/api/status/:requestId')`) -/

/-- The JSON body (plus HTTP status) produced by the status endpoint. Absent
fields are `none`. -/
structure StatusResponse where
  httpStatus : Nat
  statusField : Option String := none
  progress : Option Nat := none
  message : Option String := none
  results : Option (List (String × String)) := none
  error : Option String := none
deriving Repr, DecidableEq

/-- The `/api/status/:requestId` handler: 404 when the id is unknown, 403 when
the job belongs to another user; a failed job answers HTTP 500 with
`{status, error}` only; a completed job answers `{status, progress: 100,
message, results}`; a processing job answers `{status, progress, message}`. -/
def statusHandler (registry : List (String × JobState)) (rid uid : String) :
    StatusResponse :=
  match registry.lookup rid with
  | none => { httpStatus := 404, error := some "Job not found" }
  | some job =>
    if job.userId != uid then { httpStatus := 403, error := some "Access denied" }
    else
      match job.status with
      | .failed => { httpStatus := 500, statusField := some "failed", error := job.error }
      | .completed =>
          { httpStatus := 200, statusField := some "completed", progress := some 100,
            message := some job.message, results := some job.results }
      | .processing =>
          { httpStatus := 200, statusField := some "processing",
            progress := some job.progress, message := some job.message }

/-- A status read with the registry threaded through: the handler only ever
calls `generationJobs.get`, so the registry it hands back is untouched. -/
def statusRead (registry : List (String × JobState)) (rid uid : String) :
    StatusResponse × List (String × JobState) :=
  (statusHandler registry rid uid, registry)

/-! ## Claim C8 -/

/-- C8 counterexample: for an owned *failed* job the snapshot carries neither
`progress` nor `message` (it is `{status, error}` at HTTP 500), refuting the
claim that the snapshot always contains status, progress and message. -/
theorem status_failed_snapshot_counterexample :
    (statusHandler
        [("7", { status := .failed, progress := 40,
                 message := "Running Vella AI model...",
                 error := some "Virtual try-on failed: boom",
                 userId := "u" })] "7" "u").progress = none ∧
    (statusHandler
        [("7", { status := .failed, progress := 40,
                 message := "Running Vella AI model...",
                 error := some "Virtual try-on failed: boom",
                 userId := "u" })] "7" "u").message = none ∧
    (statusHandler
        [("7", { status := .failed, progress := 40,
                 message := "Running Vella AI model...",
                 error := some "Virtual try-on failed: boom",
                 userId := "u" })] "7" "u").error =
      some "Virtual try-on failed: boom" := by
  decide

/-- C8 (amended): `getStatus` fails with NotFound (404) when no job with the
given id exists and with Forbidden (403) when the caller's owner id does not
match the job's owner; otherwise it returns a status-dependent snapshot —
`{status, progress, message}` while processing, `{status, progress = 100,
message, results}` when completed, and `{status, error}` only (no progress, no
message, HTTP 500) when failed — and the read never mutates the registry, so
arbitrarily repeated reads return identical content. -/
theorem status_read_contract :
    ∀ (registry : List (String × JobState)) (rid uid : String),
      (registry.lookup rid = none →
        statusHandler registry rid uid = { httpStatus := 404, error := some "Job not found" }) ∧
      (∀ job, registry.lookup rid = some job →
        (job.userId ≠ uid →
          statusHandler registry rid uid =
            { httpStatus := 403, error := some "Access denied" }) ∧
        (job.userId = uid →
          (job.status = .failed →
            statusHandler registry rid uid =
              { httpStatus := 500, statusField := some "failed", error := job.error }) ∧
          (job.status = .completed →
            statusHandler registry rid uid =
              { httpStatus := 200, statusField := some "completed", progress := some 100,
                message := some job.message, results := some job.results }) ∧
          (job.status = .processing →
            statusHandler registry rid uid =
              { httpStatus := 200, statusField := some "processing",
                progress := some job.progress, message := some job.message }))) ∧
      (statusRead registry rid uid).2 = registry ∧
      statusRead (statusRead registry rid uid).2 rid uid = statusRead registry rid uid := by
  intro registry rid uid
  refine ⟨?_, ?_, rfl, rfl⟩
  · intro h
    simp [statusHandler, h]
  · intro job hj
    constructor
    · intro hne
      simp [statusHandler, hj, hne]
    · intro heq
      refine ⟨?_, ?_, ?_⟩ <;> intro hs <;> simp [statusHandler, hj, heq, hs]

/-- Witness for `status_read_contract`: the NotFound case on the empty
registry and the failed-job case on a one-entry registry. -/
theorem status_read_contract_witness :
    statusHandler [] "1" "u" = { httpStatus := 404, error := some "Job not found" } ∧
    statusHandler [("7", { status := .failed, error := some "boom", userId := "u" })] "7" "u" =
      { httpStatus := 500, statusField := some "failed", error := some "boom" } :=
  ⟨(status_read_contract [] "1" "u").1 rfl,
   (((status_read_contract [("7", { status := .failed, error := some "boom", userId := "u" })]
        "7" "u").2.1
      ({ status := .failed, error := some "boom", userId := "u" } : JobState)
      (by decide)).2 rfl).1 rfl⟩

/-! ## Generate endpoint (`app.post('/api/generate')`) -/

/-- JavaScript truthiness of an optional string field: present and
non-empty. -/
def optTruthy (o : Option String) : Bool :=
  match o with
  | some s => !s.isEmpty
  | none => false

/-- One garment selection inside the request's `garmentData` JSON
(`{id?, garmentType?}`). -/
structure GarmentSel where
  id : Option String := none
  garmentType : Option String := none
deriving Repr, DecidableEq

/-- The parsed `garmentData` JSON body: the single-garment fields and/or the
`top`/`bottom` selections. -/
structure GarmentData where
  id : Option String := none
  garmentType : Option String := none
  top : Option GarmentSel := none
  bottom : Option GarmentSel := none
deriving Repr, DecidableEq

/-- The `garmentData` form field as received: absent (or JSON `null`), a
string that `JSON.parse` rejects, or a parsed object. -/
inductive GarmentDataField where
  | absent
  | malformed
  | parsed (gd : GarmentData)
deriving Repr, DecidableEq

/-- A `/api/generate` request after authentication and multer upload handling:
the four possible uploaded file paths, the body fields, and the authenticated
user id. -/
structure GenRequest where
  userId : String
  modelImageUpload : Option String := none
  singleGarmentUpload : Option String := none
  topGarmentUpload : Option String := none
  bottomGarmentUpload : Option String := none
  modelType : Option String := none
  modelId : Option String := none
  garmentType : Option String := none
  garmentData : GarmentDataField := .absent
  outputCount : Nat := 1
deriving Repr, DecidableEq

/-- The response of the generate handler: HTTP status, plus the returned
`requestId` on success. -/
structure GenResponse where
  httpStatus : Nat
  requestId : Option String := none
deriving Repr, DecidableEq

/-- The filesystem / clock collaborators of `server.js`. -/
structure ServerEnv where
  now : Nat
  fileExists : String → Bool
  fileSize : String → Except String Nat

/-- The `defaultImages.models` table of `server.js`. -/
def defaultModels : List (String × String) :=
  [("1", "model1.png"), ("2", "model2.jpeg"), ("3", "model3.png"), ("4", "model4.png"),
   ("5", "model5.png"), ("6", "model6.jpg"), ("7", "model7.jpg"), ("8", "model8.png")]

/-- The `defaultImages.garments` table of `server.js`. -/
def defaultGarments : List (String × String) :=
  [("top2", "top2.png"), ("top3", "top3.png"), ("top4", "top4.png"),
   ("bottom1", "bottom1.png"), ("dress", "dress.png")]

/-- `getImagePath(type, id, file)`: an uploaded file wins; otherwise a default
id is resolved against the table and checked on disk; anything else throws
(modelled as `Except.error` with the thrown message). -/
def getImagePath (env : ServerEnv) (ty : String) (id : Option String)
    (file : Option String) : Except String String :=
  match file with
  | some fpath => .ok fpath
  | none =>
    match id with
    | some i =>
      match (if ty == "model" then defaultModels.lookup i
             else if ty == "garment" then defaultGarments.lookup i else none) with
      | some fn =>
        if env.fileExists ("defaults/" ++ fn) then .ok ("defaults/" ++ fn)
        else .error ("Default image not found: " ++ fn)
      | none => .error ("Invalid " ++ ty ++ " ID: " ++ i)
    | none => .error ("Invalid " ++ ty ++ " image: undefined")

/-- `validateImage(imagePath)`: default assets pass; anything else must exist
(`statSync` throwing is an error) and weigh between 1 KiB and 10 MiB. -/
def validateImage (env : ServerEnv) (p : String) : Except String Unit :=
  if strIncludes p "defaults" then .ok ()
  else
    match env.fileSize p with
    | .error e => .error e
    | .ok sz =>
      if sz < 1024 then .error "Image file too small"
      else if sz > 10 * 1024 * 1024 then .error "Image file too large"
      else .ok ()

/-- The garment-validation loop of the handler: each non-default garment image
is validated; the first failure aborts. -/
def validateGarments (env : ServerEnv) : List Garment → Except String Unit
  | [] => .ok ()
  | g :: rest =>
    if !strIncludes g.imagePath "defaults" then
      match validateImage env g.imagePath with
      | .error e => .error e
      | .ok _ => validateGarments env rest
    else validateGarments env rest

/-- The handler's validation block: the model image (unless a default asset)
then every garment image. -/
def validateAll (env : ServerEnv) (mpath : String) (gs : List Garment) :
    Except String Unit :=
  if !strIncludes mpath "defaults" then
    match validateImage env mpath with
    | .error e => .error e
    | .ok _ => validateGarments env gs
  else validateGarments env gs

/-- `generationJobs.set`: replace the entry in place when the key exists,
append otherwise. -/
def mapSet (m : List (String × JobState)) (k : String) (v : JobState) :
    List (String × JobState) :=
  if m.any (fun p => p.1 == k) then m.map (fun p => if p.1 == k then (k, v) else p)
  else m ++ [(k, v)]

/-- The registry entry created by the generate handler at registration time
(`status: 'processing', progress: 0, …`). -/
def newJob (uid mpath : String) (gs : List Garment) : JobState :=
  { status := .processing, progress := 0,
    message := "Starting Vella virtual try-on generation...",
    results := [], error := none, userId := uid, modelImage := mpath,
    garments := gs, isDefaultModel := strIncludes mpath "defaults" }

/-- The parsed `garmentData`, when present. -/
def parsedGD (req : GenRequest) : Option GarmentData :=
  match req.garmentData with
  | .parsed gd => some gd
  | _ => none

/-- `hasUploadedModel || hasDefaultModel`. -/
def hasModelRef (req : GenRequest) : Bool :=
  req.modelImageUpload.isSome ||
    ((req.modelType == some "default") && optTruthy req.modelId)

/-- `parsedGarmentData && parsedGarmentData.id`. -/
def hasDefaultSingle (req : GenRequest) : Bool :=
  match parsedGD req with
  | some gd => optTruthy gd.id
  | none => false

/-- `hasUploadedSingle || hasDefaultSingle`. -/
def hasSingleRef (req : GenRequest) : Bool :=
  req.singleGarmentUpload.isSome || hasDefaultSingle req

/-- `parsedGarmentData && parsedGarmentData.top && parsedGarmentData.top.id`. -/
def hasDefaultTop (req : GenRequest) : Bool :=
  match parsedGD req with
  | some gd => match gd.top with
    | some t => optTruthy t.id
    | none => false
  | none => false

/-- `parsedGarmentData && parsedGarmentData.bottom && parsedGarmentData.bottom.id`. -/
def hasDefaultBottom (req : GenRequest) : Bool :=
  match parsedGD req with
  | some gd => match gd.bottom with
    | some b => optTruthy b.id
    | none => false
  | none => false

/-- `hasUploadedTop || hasDefaultTop`. -/
def hasTopRef (req : GenRequest) : Bool :=
  req.topGarmentUpload.isSome || hasDefaultTop req

/-- `hasUploadedBottom || hasDefaultBottom`. -/
def hasBottomRef (req : GenRequest) : Bool :=
  req.bottomGarmentUpload.isSome || hasDefaultBottom req

/-- The single-garment type inference: an explicit `garmentType` wins,
otherwise the default id's substring (`bottom`, then `dress`) decides, with
`'top'` as the fallback. -/
def singleGarmentTypeOf (req : GenRequest) : String :=
  match parsedGD req with
  | some gd =>
    if optTruthy gd.garmentType then gd.garmentType.getD "top"
    else if optTruthy gd.id then
      if strIncludes (gd.id.getD "") "bottom" then "bottom"
      else if strIncludes (gd.id.getD "") "dress" then "dress"
      else "top"
    else "top"
  | none => "top"

/-- The top-garment type inference of the `multiple` branch: an explicit
`garmentType` wins, otherwise a default id containing `dress` makes it a
dress. -/
def topGarmentTypeOfGD (gd : GarmentData) : String :=
  match gd.top with
  | some t =>
    if optTruthy t.garmentType then t.garmentType.getD "top"
    else if optTruthy t.id then
      if strIncludes (t.id.getD "") "dress" then "dress" else "top"
    else "top"
  | none => "top"

/-- The tail of the handler shared by both garment branches: resolve the
model image path (a thrown error reaches the outer catch, HTTP 500), run the
validation block (a validation error answers 400), then mint
`requestId = Date.now().toString()`, register the job, and answer 200 with
the id. The asynchronous `processVellaTryOn(requestId, …)` launch happens
after the response and performs no synchronous registry change. -/
def finishSubmission (env : ServerEnv) (req : GenRequest)
    (registry : List (String × JobState)) (gs : List Garment) :
    GenResponse × List (String × JobState) :=
  match getImagePath env "model"
      (if req.modelType == some "default" then req.modelId else none)
      req.modelImageUpload with
  | .error _ => ({ httpStatus := 500 }, registry)
  | .ok mpath =>
    match validateAll env mpath gs with
    | .error _ => ({ httpStatus := 400 }, registry)
    | .ok _ =>
      ({ httpStatus := 200, requestId := some (toString env.now) },
       mapSet registry (toString env.now) (newJob req.userId mpath gs))

/-- The `app.post('/api/generate')` handler after authentication and upload
handling, transcribed branch by branch: unparseable `garmentData` answers 400;
a missing model reference answers 400; the `single` branch requires a single
garment reference (else 400), infers its type and resolves its path (a thrown
resolution error reaches the outer catch, 500); the `multiple` branch requires
at least one of top/bottom (else 400) — its top-type inference dereferences
`parsedGarmentData.top` unguarded, so a top reference without any parsed
`garmentData` throws a `TypeError` into the outer catch (500) — and skips the
bottom garment when the top turned out to be a dress; any other `garmentType`
answers 400. Only `finishSubmission` ever touches the registry. -/
def generateHandler (env : ServerEnv) (req : GenRequest)
    (registry : List (String × JobState)) :
    GenResponse × List (String × JobState) :=
  match req.garmentData with
  | .malformed => ({ httpStatus := 400 }, registry)
  | _ =>
    if !hasModelRef req then ({ httpStatus := 400 }, registry)
    else if req.garmentType == some "single" then
      if !hasSingleRef req then ({ httpStatus := 400 }, registry)
      else
        match getImagePath env "garment"
            (if hasDefaultSingle req then (parsedGD req).bind GarmentData.id else none)
            req.singleGarmentUpload with
        | .error _ => ({ httpStatus := 500 }, registry)
        | .ok gpath =>
          finishSubmission env req registry [⟨singleGarmentTypeOf req, gpath⟩]
    else if req.garmentType == some "multiple" then
      if !(hasTopRef req || hasBottomRef req) then ({ httpStatus := 400 }, registry)
      else if hasTopRef req then
        match parsedGD req with
        | none => ({ httpStatus := 500 }, registry)
        | some gd =>
          match getImagePath env "garment"
              (if hasDefaultTop req then gd.top.bind GarmentSel.id else none)
              req.topGarmentUpload with
          | .error _ => ({ httpStatus := 500 }, registry)
          | .ok tpath =>
            if hasBottomRef req && !(topGarmentTypeOfGD gd == "dress") then
              match getImagePath env "garment"
                  (if hasDefaultBottom req then gd.bottom.bind GarmentSel.id else none)
                  req.bottomGarmentUpload with
              | .error _ => ({ httpStatus := 500 }, registry)
              | .ok bpath =>
                finishSubmission env req registry
                  [⟨topGarmentTypeOfGD gd, tpath⟩, ⟨"bottom", bpath⟩]
            else finishSubmission env req registry [⟨topGarmentTypeOfGD gd, tpath⟩]
      else if hasBottomRef req then
        match getImagePath env "garment"
            (if hasDefaultBottom req then (parsedGD req).bind
              (fun gd => gd.bottom.bind GarmentSel.id) else none)
            req.bottomGarmentUpload with
        | .error _ => ({ httpStatus := 500 }, registry)
        | .ok bpath => finishSubmission env req registry [⟨"bottom", bpath⟩]
      else finishSubmission env req registry []
    else ({ httpStatus := 400 }, registry)

/-! ## Claim C7 -/

/-- The claim's synchronous validation predicate, as the code checks it: the
model reference is missing, or the mode-appropriate garment reference set is
empty (an unrecognized `garmentType` offers no garment reference at all). -/
def missingRequiredRefs (req : GenRequest) : Bool :=
  !hasModelRef req ||
    (if req.garmentType == some "single" then !hasSingleRef req
     else if req.garmentType == some "multiple" then !(hasTopRef req || hasBottomRef req)
     else true)

/-- C7: the generate handler validates synchronously — a model image reference
and at least one garment reference must be present — before any job is
created: every request failing this validation is answered HTTP 400
synchronously and the job registry is left exactly as it was; no entry is ever
added. -/
theorem submit_validation_before_job :
    ∀ (env : ServerEnv) (req : GenRequest) (registry : List (String × JobState)),
      missingRequiredRefs req = true →
      (generateHandler env req registry).1.httpStatus = 400 ∧
      (generateHandler env req registry).2 = registry := by
  intro env req registry hmiss
  rw [missingRequiredRefs] at hmiss
  cases hgd : req.garmentData with
  | malformed => simp [generateHandler, hgd]
  | absent =>
    rcases hm : hasModelRef req with _ | _
    · simp [generateHandler, hgd, hm]
    · rw [hm] at hmiss
      simp only [Bool.not_true, Bool.false_or] at hmiss
      rcases hst : req.garmentType == some "single" with _ | _
      · rw [hst] at hmiss
        rcases hmt : req.garmentType == some "multiple" with _ | _
        · simp [generateHandler, hgd, hm, hst, hmt]
        · rw [hmt] at hmiss
          simp only [Bool.false_eq_true, if_false, if_true] at hmiss
          simp [generateHandler, hgd, hm, hst, hmt, hmiss]
      · rw [hst] at hmiss
        simp only [if_true] at hmiss
        simp [generateHandler, hgd, hm, hst, hmiss]
  | parsed gd =>
    rcases hm : hasModelRef req with _ | _
    · simp [generateHandler, hgd, hm]
    · rw [hm] at hmiss
      simp only [Bool.not_true, Bool.false_or] at hmiss
      rcases hst : req.garmentType == some "single" with _ | _
      · rw [hst] at hmiss
        rcases hmt : req.garmentType == some "multiple" with _ | _
        · simp [generateHandler, hgd, hm, hst, hmt]
        · rw [hmt] at hmiss
          simp only [Bool.false_eq_true, if_false, if_true] at hmiss
          simp [generateHandler, hgd, hm, hst, hmt, hmiss]
      · rw [hst] at hmiss
        simp only [if_true] at hmiss
        simp [generateHandler, hgd, hm, hst, hmiss]

/-- Witness for `submit_validation_before_job`: a request with a garment mode
but no model reference is rejected with 400 and the registry stays empty. -/
theorem submit_validation_before_job_witness :
    (generateHandler
        { now := 0, fileExists := fun _ => true, fileSize := fun _ => .ok 2048 }
        { userId := "u", garmentType := some "single" } []).1.httpStatus = 400 ∧
    (generateHandler
        { now := 0, fileExists := fun _ => true, fileSize := fun _ => .ok 2048 }
        { userId := "u", garmentType := some "single" } []).2 = [] :=
  submit_validation_before_job _ _ _ (by decide)

/-! ## Claim C9 -/

/-- A clock/filesystem environment in which two submissions are handled during
the same millisecond (`Date.now()` returns the same value for both). -/
def collisionEnv : ServerEnv :=
  { now := 1700000000000, fileExists := fun _ => true, fileSize := fun _ => .ok 2048 }

/-- A valid submission by owner `u1`: default model 1, default dress. -/
def collisionReq1 : GenRequest :=
  { userId := "u1", modelType := some "default", modelId := some "1",
    garmentType := some "single", garmentData := .parsed { id := some "dress" } }

/-- The same valid submission shape by a different owner `u2`. -/
def collisionReq2 : GenRequest :=
  { userId := "u2", modelType := some "default", modelId := some "1",
    garmentType := some "single", garmentData := .parsed { id := some "dress" } }

/-- C9 (code bug): two valid submissions handled in the same clock millisecond
both receive `requestId = Date.now().toString() = "1700000000000"`; the first
registers its job, and the second — from a different owner — overwrites it:
after both calls the registry holds a single entry, owned by `u2`. The ids are
not distinct and one submission's job replaces the other's. -/
theorem submit_same_millisecond_collision :
    (generateHandler collisionEnv collisionReq1 []).1.requestId =
      some "1700000000000" ∧
    (generateHandler collisionEnv collisionReq2
        (generateHandler collisionEnv collisionReq1 []).2).1.requestId =
      some "1700000000000" ∧
    ((generateHandler collisionEnv collisionReq1 []).2).map
        (fun p => (p.1, p.2.userId)) = [("1700000000000", "u1")] ∧
    ((generateHandler collisionEnv collisionReq2
        (generateHandler collisionEnv collisionReq1 []).2).2).map
        (fun p => (p.1, p.2.userId)) = [("1700000000000", "u2")] := by
  decide

end TryOn
